import Mathlib

/-!
# cPTX node: CLI automation and configuration transactions

A shallow embedding of `topo/node/cptx/cptx.go`.

* Go `error` values are `Option GoError` (`none` is `nil`).
* The scrapligo driver, the scrapligocfg handle, the Kubernetes watch and the
  connection factory of `node.Impl` are collaborators that live outside the
  file; they are the fields of `Collab`, a deterministic machine over an
  arbitrary state type `σ`.
* Every call on a collaborator is appended to `World.trace`; every `log.Infof`
  line is appended to `World.logs`.
* Time is a simulated clock in seconds (`World.clock`): a call on a
  collaborator takes no time and `time.Sleep d` advances the clock by `d`.
-/

namespace Cptx

/-! ## Go values -/

/-- A non-nil Go `error`, identified by its message. -/
structure GoError where
  msg : String
deriving DecidableEq, Repr

/-- Go `strings.Contains`: `substr` occurs in `s` as a contiguous block. -/
def stringsContains (s substr : String) : Bool :=
  decide (substr.toList <:+: s.toList)

/-- Go map: a total lookup function; a nil map is `none` at the use site. -/
abbrev GoMap (K V : Type) := K → Option V

/-- Map assignment `m[k] = v`. -/
def GoMap.set {K V : Type} [DecidableEq K] (m : GoMap K V) (k : K) (v : V) : GoMap K V :=
  fun x => if x = k then some v else m x

/-- Map read `m[k]` of a string-valued map that may be nil: the zero value when absent. -/
def mapIndex (m : Option (GoMap String String)) (k : String) : String :=
  match m with
  | none => ""
  | some f => (f k).getD ""

/-! ## Protocol buffer messages (`tpb`) -/

/-- Message `tpb.Service`. -/
structure TpbService where
  Name : String
  Inside : Nat
deriving DecidableEq, Repr

/-- Message `tpb.SelfSignedCertCfg`. -/
structure SelfSignedCertCfg where
  CertName : String
  KeyName : String
  KeySize : Nat
  CommonName : String
deriving DecidableEq, Repr

/-- Message `tpb.CertificateCfg`; the oneof holds a self-signed spec or nothing. -/
structure CertificateCfg where
  SelfSigned : Option SelfSignedCertCfg
deriving DecidableEq, Repr

/-- Message `tpb.Config`. -/
structure TpbConfig where
  Command : List String
  Args : List String
  Image : String
  Env : Option (GoMap String String)
  EntryCommand : String
  ConfigPath : String
  ConfigFile : String
  Sleep : Nat
  Cert : Option CertificateCfg
  InitImage : String

/-- Message `tpb.Node`. -/
structure TpbNode where
  Name : String
  Labels : Option (GoMap String String)
  Config : Option TpbConfig
  Constraints : Option (GoMap String String)
  Services : Option (GoMap Nat TpbService)

/-- Nil-safe getter `(*tpb.Node).GetConfig`. -/
def GetConfig (pb : Option TpbNode) : Option TpbConfig :=
  pb.bind fun x => x.Config

/-- Nil-safe getter `(*tpb.Config).GetCert`. -/
def GetCert (c : Option TpbConfig) : Option CertificateCfg :=
  c.bind fun x => x.Cert

/-- Nil-safe getter `(*tpb.CertificateCfg).GetSelfSigned`. -/
def GetSelfSigned (c : Option CertificateCfg) : Option SelfSignedCertCfg :=
  c.bind fun x => x.SelfSigned

/-- Nil-safe getter `(*tpb.SelfSignedCertCfg).GetCertName`. -/
def GetCertName (c : Option SelfSignedCertCfg) : String :=
  match c with
  | none => ""
  | some x => x.CertName

/-- Nil-safe getter `(*tpb.Config).GetCommand`. -/
def GetCommand (c : Option TpbConfig) : List String :=
  match c with
  | none => []
  | some x => x.Command

/-- The value of `tpb.Vendor_JUNIPER.String()`. -/
def vendorJuniper : String := "JUNIPER"

/-! ## `defaults` -/

/-- The literal `&tpb.Node{Name: "default_cptx_node"}` that replaces a nil argument. -/
def nilNode : TpbNode :=
  { Name := "default_cptx_node", Labels := none, Config := none, Constraints := none,
    Services := none }

/-- The literal `&tpb.Config{}` that replaces a nil `pb.Config`. -/
def emptyConfig : TpbConfig :=
  { Command := [], Args := [], Image := "", Env := none, EntryCommand := "",
    ConfigPath := "", ConfigFile := "", Sleep := 0, Cert := none, InitImage := "" }

/-- The map literal assigned to a nil `pb.Constraints`. -/
def defaultConstraints : GoMap String String :=
  fun k => if k = "cpu" then some "8" else if k = "memory" then some "8Gi" else none

/-- The map literal assigned to a nil `pb.Services`. -/
def defaultServices : GoMap Nat TpbService :=
  fun k =>
    if k = 443 then some { Name := "ssl", Inside := 443 }
    else if k = 22 then some { Name := "ssh", Inside := 22 }
    else if k = 32767 then some { Name := "gnmi", Inside := 32767 }
    else none

/-- The map literal assigned to a nil `pb.Config.Env`. -/
def defaultEnv : GoMap String String :=
  fun k => if k = "CPTX" then some "1" else none

/-- Step `if pb.Constraints == nil`. -/
def fillConstraints (pb : TpbNode) : TpbNode :=
  if pb.Constraints.isNone then
    { pb with Constraints := some defaultConstraints }
  else pb

/-- Step `if pb.Services == nil`. -/
def fillServices (pb : TpbNode) : TpbNode :=
  if pb.Services.isNone then
    { pb with Services := some defaultServices }
  else pb

/-- Step `if pb.Labels == nil`. -/
def fillLabels (pb : TpbNode) : TpbNode :=
  if pb.Labels.isNone then { pb with Labels := some (fun _ => none) } else pb

/-- Step `if pb.Labels["vendor"] == ""`; the write goes into the existing map. -/
def fillVendor (pb : TpbNode) : TpbNode :=
  if mapIndex pb.Labels "vendor" = "" then
    { pb with Labels := pb.Labels.map fun m => GoMap.set m "vendor" vendorJuniper }
  else pb

/-- Step `if pb.Config == nil`. -/
def fillConfig (pb : TpbNode) : TpbNode :=
  if pb.Config.isNone then { pb with Config := some emptyConfig } else pb

/-- Step `if len(pb.Config.GetCommand()) == 0`. -/
def fillCommand (c : TpbConfig) : TpbConfig :=
  if (GetCommand (some c)).length = 0 then { c with Command := ["/entrypoint.sh"] } else c

/-- Step `if pb.Config.Image == ""`. -/
def fillImage (c : TpbConfig) : TpbConfig :=
  if c.Image = "" then { c with Image := "cptx:latest" } else c

/-- Step `if pb.Config.Env == nil`. -/
def fillEnv (c : TpbConfig) : TpbConfig :=
  if c.Env.isNone then
    { c with Env := some defaultEnv }
  else c

/-- Step `if pb.Config.EntryCommand == ""`; `name` is `pb.Name`. -/
def fillEntryCommand (name : String) (c : TpbConfig) : TpbConfig :=
  if c.EntryCommand = "" then
    { c with EntryCommand := "kubectl exec -it " ++ name ++ " -- cli -c" }
  else c

/-- Step `if pb.Config.ConfigPath == ""`. -/
def fillConfigPath (c : TpbConfig) : TpbConfig :=
  if c.ConfigPath = "" then { c with ConfigPath := "/home/evo/configdisk" } else c

/-- Step `if pb.Config.ConfigFile == ""`. -/
def fillConfigFile (c : TpbConfig) : TpbConfig :=
  if c.ConfigFile = "" then { c with ConfigFile := "juniper.conf" } else c

/-- The six steps of `defaults` that work on the (non-nil) `pb.Config`, in source order. -/
def defaultsConfig (name : String) (c : TpbConfig) : TpbConfig :=
  fillConfigFile (fillConfigPath (fillEntryCommand name (fillEnv (fillImage (fillCommand c)))))

/-- Function `defaults`: the steps of the source in order, on a possibly nil argument. -/
def defaults (pb : Option TpbNode) : TpbNode :=
  let pb := match pb with
    | none => nilNode
    | some x => x
  let pb := fillConfig (fillVendor (fillLabels (fillServices (fillConstraints pb))))
  { pb with Config := pb.Config.map (defaultsConfig pb.Name) }

/-! ### Auxiliary notions for `defaults` -/

/-- Every field that `defaults` looks at in a configuration message is set. -/
def ConfigFilled (c : TpbConfig) : Prop :=
  c.Command.length ≠ 0 ∧ c.Image ≠ "" ∧ c.Env.isNone = false ∧ c.EntryCommand ≠ "" ∧
    c.ConfigPath ≠ "" ∧ c.ConfigFile ≠ ""

/-- Every field that `defaults` looks at in a node description is set. -/
def NodeFilled (pb : TpbNode) : Prop :=
  pb.Constraints.isNone = false ∧ pb.Services.isNone = false ∧ pb.Labels.isNone = false ∧
    mapIndex pb.Labels "vendor" ≠ "" ∧ ∃ c, pb.Config = some c ∧ ConfigFilled c

/-- The labels after the two label steps: a nil map becomes empty, then the vendor is filled. -/
def labelsAfter (l : Option (GoMap String String)) : GoMap String String :=
  let m := l.getD (fun _ => none)
  if mapIndex (some m) "vendor" = "" then GoMap.set m "vendor" vendorJuniper else m

/-- A node description whose labels are set but carry no vendor. -/
def labelledNode : TpbNode :=
  { Name := "r1", Labels := some (fun k => if k = "topo" then some "lab" else none),
    Config := none, Constraints := none, Services := none }

/-- A node description in which every field that `defaults` looks at is set. -/
def filledNode : TpbNode :=
  { Name := "r1"
    Labels := some (fun k => if k = "vendor" then some "ACME" else none)
    Config := some { Command := ["/sbin/init"], Args := [], Image := "cptx:1.0",
                     Env := some (fun _ => none), EntryCommand := "cli",
                     ConfigPath := "/config", ConfigFile := "startup.conf", Sleep := 0,
                     Cert := none, InitImage := "" }
    Constraints := some (fun k => if k = "cpu" then some "4" else none)
    Services := some (fun _ => none) }

/-! ## Collaborators -/

/-- The scrapligo `response.Response`: the text of one command and its failure indicator. -/
structure Response where
  Result : String
  Failed : Option GoError
deriving DecidableEq, Repr

/-- The scrapligo `response.MultiResponse`: the responses of a batch and the batch's own
failure indicator. -/
structure MultiResponse where
  Responses : List Response
  Failed : Option GoError
deriving DecidableEq, Repr

/-- The scrapligocfg `response.Response` of a load or a commit. -/
structure CfgResponse where
  Result : String
  Failed : Option GoError
deriving DecidableEq, Repr

/-- What a fallible call gave back: Go `(value, err)`. -/
inductive Outcome (α : Type) where
  | ok (value : α)
  | error (err : GoError)
deriving DecidableEq, Repr

/-- One call on a collaborator, with what it returned. -/
inductive Event where
  | watch (err : Option GoError)
  | openConn (platform : String) (err : Option GoError)
  | isAlive (alive : Bool)
  | sendCommands (commands : List String) (res : Outcome MultiResponse)
  | sendConfigs (configs : List String) (res : Outcome MultiResponse)
  | sleep (seconds : Nat)
  | newCfg (platform candidate : String) (err : Option GoError)
  | prepare (err : Option GoError)
  | loadConfig (config : String) (replace : Bool) (res : Outcome CfgResponse)
  | commitConfig (res : Outcome CfgResponse)
  | close (err : Option GoError)
deriving DecidableEq, Repr

/-- The code outside the file that the node calls: the Kubernetes pod watch, the connection
factory of `node.Impl`, the scrapligo driver and the scrapligocfg handle. Each call reads the
state `σ` of the outside world and leaves a new one. -/
structure Collab (σ : Type) where
  Watch : σ → Option GoError × σ
  GetCLIConn : σ → String → Option GoError × σ
  IsAlive : σ → Bool
  SendCommands : σ → List String → Outcome MultiResponse × σ
  SendConfigs : σ → List String → Outcome MultiResponse × σ
  Close : σ → Option GoError × σ
  JoinedResult : MultiResponse → String
  NewCfg : σ → String → String → Option GoError × σ
  Prepare : σ → Option GoError × σ
  LoadConfig : σ → String → Bool → Outcome CfgResponse × σ
  CommitConfig : σ → Outcome CfgResponse × σ

/-- The state an operation runs in: the outside world, the clock in seconds, the calls made
so far and the lines logged so far. -/
structure World (σ : Type) where
  dev : σ
  clock : Nat
  trace : List Event
  logs : List String

/-- The receiver `*Node`: the description `n.Proto`, the value of `n.Name()`, the test
options and the collaborators. -/
structure Node (σ : Type) where
  Proto : Option TpbNode
  Name : String
  testOpts : List String
  ext : Collab σ

variable {σ : Type}

/-- Record a call and the state it left. -/
def World.call (w : World σ) (e : Event) (s : σ) : World σ :=
  { w with dev := s, trace := w.trace ++ [e] }

/-- A line of `log.Infof`. -/
def logInfof (msg : String) (w : World σ) : World σ :=
  { w with logs := w.logs ++ [msg] }

/-- Several lines of `log.Infof`, in order. -/
def logLines (msgs : List String) (w : World σ) : World σ :=
  { w with logs := w.logs ++ msgs }

/-- A call of `time.Sleep`, in seconds. -/
def timeSleep (seconds : Nat) (w : World σ) : World σ :=
  { w with clock := w.clock + seconds, trace := w.trace ++ [Event.sleep seconds] }

/-! ## Constants -/

/-- The constant `scrapliPlatformName`. -/
def scrapliPlatformName : String := "juniper_junos"

/-- The variable `certGenTimeout`, ten minutes, in seconds. -/
def certGenTimeout : Nat := 10 * 60

/-- The poll interval of the certificate loop, the argument of its `time.Sleep`, in seconds. -/
def certPollInterval : Nat := 30

/-! ## Operations of the node -/

/-- Method `SpawnCLIConn`: open the CLI connection through `GetCLIConn`. -/
def SpawnCLIConn (n : Node σ) (w : World σ) : Option GoError × World σ :=
  let r := n.ext.GetCLIConn w.dev scrapliPlatformName
  (r.1, w.call (Event.openConn scrapliPlatformName r.1) r.2)

/-- Method `GRPCConfig`: the configuration that enables the gRPC service. -/
def GRPCConfig : List String :=
  [ "set system services extension-service request-response grpc ssl hot-reloading",
    "set system services extension-service request-response grpc ssl use-pki",
    "set openconfig-system:system openconfig-system-grpc:grpc-servers grpc-server grpc-server config services GNMI",
    "set openconfig-system:system openconfig-system-grpc:grpc-servers grpc-server grpc-server config enable true",
    "set openconfig-system:system openconfig-system-grpc:grpc-servers grpc-server grpc-server config port 32767",
    "set openconfig-system:system openconfig-system-grpc:grpc-servers grpc-server grpc-server config transport-security true",
    "set openconfig-system:system openconfig-system-grpc:grpc-servers grpc-server grpc-server config certificate-id grpc-server-cert",
    "set openconfig-system:system openconfig-system-grpc:grpc-servers grpc-server grpc-server config listen-addresses 0.0.0.0",
    "commit" ]

/-- The two commands of the certificate batch, for the certificate name `certName`. -/
def certCommands (certName : String) : List String :=
  [ "request security pki generate-key-pair certificate-id " ++ certName,
    "request security pki local-certificate generate-self-signed certificate-id " ++ certName ++
      " subject CN=abc domain-name google.com ip-address 1.2.3.4 email example@google.com" ]

/-- The inner loop of `waitCertInfraReadyAndPushCert` over the responses of one batch:
`some r` when the loop returns `r` from the method, `none` when it runs to its end, together
with the lines it logged. -/
def scanCertResponses (n : Node σ) (multiresp : MultiResponse) :
    List Response → Option (Option GoError) × List String
  | [] => (none, [])
  | resp :: rest =>
    match resp.Failed with
    | some failed => (some (some failed), [])
    | none =>
      let notReady := if stringsContains resp.Result "error:" then
          ["Cert infra isn't ready. Retrying in 30 sec. Response " ++ n.ext.JoinedResult multiresp]
        else []
      if stringsContains resp.Result "successfully" then
        (some none, notReady ++
          ["Cert Infra ready. Configured Certs. Response " ++ n.ext.JoinedResult multiresp])
      else
        let r := scanCertResponses n multiresp rest
        (r.1, notReady ++ r.2)

/-- The outer loop of `waitCertInfraReadyAndPushCert`: `for time.Since(start) < certGenTimeout`,
with the return after the loop. -/
def certPollLoop (n : Node σ) (commands : List String) (start : Nat) (w : World σ) :
    Option GoError × World σ :=
  if w.clock - start < certGenTimeout then
    let r := n.ext.SendCommands w.dev commands
    let w1 := w.call (Event.sendCommands commands r.1) r.2
    match r.1 with
    | Outcome.error err =>
      (some ⟨"failed sending generate-self-signed commands: " ++ err.msg⟩, w1)
    | Outcome.ok multiresp =>
      let sc := scanCertResponses n multiresp multiresp.Responses
      let w2 := logLines sc.2 w1
      match sc.1 with
      | some ret => (ret, w2)
      | none => certPollLoop n commands start (timeSleep certPollInterval w2)
  else
    (some ⟨"failed sending generate-self-signed commands"⟩, w)
termination_by start + certGenTimeout - w.clock
decreasing_by
  simp only [timeSleep, logLines, World.call, certPollInterval]
  omega

/-- Method `waitCertInfraReadyAndPushCert`. -/
def waitCertInfraReadyAndPushCert (n : Node σ) (w : World σ) : Option GoError × World σ :=
  let selfSigned := GetSelfSigned (GetCert (GetConfig n.Proto))
  let commands := certCommands (GetCertName selfSigned)
  let w1 := logInfof "Waiting for certificates to be pushed (timeout: 10m0s)" w
  certPollLoop n commands w1.clock w1

/-- Method `GenerateSelfSigned`. The watch loop ends when the pod is seen running; it makes
no call of its own, so the watch is the one event `watch`. -/
def GenerateSelfSigned (n : Node σ) (w : World σ) : Option GoError × World σ :=
  match GetSelfSigned (GetCert (GetConfig n.Proto)) with
  | none => (none, logInfof (n.Name ++ " - no cert config") w)
  | some _ =>
    let w := logInfof (n.Name ++ " - generating self signed certs") w
    let w := logInfof (n.Name ++ " - waiting for pod to be running") w
    let r := n.ext.Watch w.dev
    let w := w.call (Event.watch r.1) r.2
    match r.1 with
    | some err => (some err, w)
    | none =>
      let w := logInfof (n.Name ++ " - pod running.") w
      let o := SpawnCLIConn n w
      match o.1 with
      | some err => (some err, o.2)
      | none =>
        let alive := n.ext.IsAlive o.2.dev
        let w := o.2.call (Event.isAlive alive) o.2.dev
        if !alive then (some ⟨"scrapligo device driver not open"⟩, w)
        else
          let p := waitCertInfraReadyAndPushCert n w
          match p.1 with
          | some err => (some err, p.2)
          | none =>
            let s := n.ext.SendConfigs p.2.dev GRPCConfig
            let w := p.2.call (Event.sendConfigs GRPCConfig s.1) s.2
            match s.1 with
            | Outcome.error err => (some err, w)
            | Outcome.ok resp =>
              match resp.Failed with
              | some failed => (some failed, w)
              | none =>
                let w := logInfof (n.Name ++ " - finished cert generation") w
                let c := n.ext.Close w.dev
                (c.1, w.call (Event.close c.1) c.2)

/-- The deferred `n.cliConn.Close()`: it runs when the method returns, its result is dropped. -/
def deferredClose (n : Node σ) (w : World σ) : World σ :=
  let c := n.ext.Close w.dev
  w.call (Event.close c.1) c.2

/-- The value of `candidateConfigFile` in `ConfigPush`: a static name under test options. -/
def candidateName (n : Node σ) : String :=
  if n.testOpts.length ≠ 0 then "scrapli_cfg_testing" else ""

/-- The part of `ConfigPush` that runs between the `defer` and the deferred close. -/
def configPushBody (n : Node σ) (cfgs : String) (w : World σ) : Option GoError × World σ :=
  let candidateConfigFile := candidateName n
  let c := n.ext.NewCfg w.dev "juniper_junos" candidateConfigFile
  let w := w.call (Event.newCfg "juniper_junos" candidateConfigFile c.1) c.2
  match c.1 with
  | some err => (some err, w)
  | none =>
    let p := n.ext.Prepare w.dev
    let w := w.call (Event.prepare p.1) p.2
    match p.1 with
    | some err => (some err, w)
    | none =>
      let l := n.ext.LoadConfig w.dev cfgs false
      let w := w.call (Event.loadConfig cfgs false l.1) l.2
      match l.1 with
      | Outcome.error err => (some err, w)
      | Outcome.ok resp =>
        match resp.Failed with
        | some failed => (some failed, w)
        | none =>
          let m := n.ext.CommitConfig w.dev
          let w := w.call (Event.commitConfig m.1) m.2
          match m.1 with
          | Outcome.error err => (some err, w)
          | Outcome.ok resp =>
            match resp.Failed with
            | some failed => (some failed, w)
            | none => (none, logInfof (n.Name ++ " - finished config push") w)

/-- Method `ConfigPush`; `cfg` and `readErr` are what `io.ReadAll(r)` returned. The line of
`log.V(1)` is left out. -/
def ConfigPush (n : Node σ) (cfg : String) (readErr : Option GoError) (w : World σ) :
    Option GoError × World σ :=
  let w := logInfof (n.Name ++ " - pushing config") w
  let cfgs := cfg
  if cfgs.utf8ByteSize = 0 then
    (none, logInfof (n.Name ++ " - empty config! not pushing") w)
  else
    match readErr with
    | some err => (some err, w)
    | none =>
      let o := SpawnCLIConn n w
      match o.1 with
      | some err => (some err, o.2)
      | none =>
        let b := configPushBody n cfgs o.2
        (b.1, deferredClose n b.2)

/-- The factory-reset batch of `ResetCfg`. -/
def resetConfigs : List String :=
  [ "load override /var/vmguest/config/juniper.conf", "commit" ]

/-- A response loop of `ResetCfg`: the error it returns, `none` when it runs to its end;
`what` is the message of the text error. -/
def scanResetResponses (n : Node σ) (what : String) (multiresp : MultiResponse) :
    List Response → Option GoError
  | [] => none
  | resp :: rest =>
    match resp.Failed with
    | some failed => some failed
    | none =>
      if stringsContains resp.Result "error:" then
        some ⟨what ++ n.ext.JoinedResult multiresp⟩
      else scanResetResponses n what multiresp rest

/-- The part of `ResetCfg` that runs between the `defer` and the deferred close. -/
def resetCfgBody (n : Node σ) (w : World σ) : Option GoError × World σ :=
  let cfgs := resetConfigs
  let r := n.ext.SendConfigs w.dev cfgs
  let w := w.call (Event.sendConfigs cfgs r.1) r.2
  match r.1 with
  | Outcome.error err => (some err, w)
  | Outcome.ok multiresp =>
    match scanResetResponses n "failed sending config-reset commands: " multiresp
        multiresp.Responses with
    | some err => (some err, w)
    | none =>
      let g := n.ext.SendConfigs w.dev GRPCConfig
      let w := w.call (Event.sendConfigs GRPCConfig g.1) g.2
      match g.1 with
      | Outcome.error err => (some err, w)
      | Outcome.ok multiresp =>
        match scanResetResponses n "failed sending gRPC commands: " multiresp
            multiresp.Responses with
        | some err => (some err, w)
        | none => (none, logInfof (n.Name ++ " - finished resetting config") w)

/-- Method `ResetCfg`. -/
def ResetCfg (n : Node σ) (w : World σ) : Option GoError × World σ :=
  let w := logInfof (n.Name ++ " - resetting config") w
  let o := SpawnCLIConn n w
  match o.1 with
  | some err => (some err, o.2)
  | none =>
    let b := resetCfgBody n o.2
    (b.1, deferredClose n b.2)

/-! ## Notions used to state the properties -/

/-- A step of the configuration transaction. -/
inductive TxStep where
  | prepare
  | load (config : String) (replace : Bool)
  | commit
deriving DecidableEq, Repr

/-- A load or commit reports success when it returns no error and its response has no
failure indicator. -/
def cfgSucceeded (res : Outcome CfgResponse) : Bool :=
  match res with
  | Outcome.ok resp => resp.Failed.isNone
  | Outcome.error _ => false

/-- The transaction step an event stands for, with whether the step reported success. -/
def Event.txStep : Event → Option (TxStep × Bool)
  | Event.prepare err => some (TxStep.prepare, err.isNone)
  | Event.loadConfig config replace res => some (TxStep.load config replace, cfgSucceeded res)
  | Event.commitConfig res => some (TxStep.commit, cfgSucceeded res)
  | _ => none

/-- The transaction steps among the events, in order. -/
def txSteps (evs : List Event) : List (TxStep × Bool) :=
  evs.filterMap Event.txStep

/-- The event is a close of the session. -/
def Event.isClose : Event → Bool
  | Event.close _ => true
  | _ => false

/-- The event is a sleep. -/
def Event.isSleep : Event → Bool
  | Event.sleep _ => true
  | _ => false

/-- The event is a poll, a batch sent with `SendCommands`. -/
def Event.isPoll : Event → Bool
  | Event.sendCommands _ _ => true
  | _ => false

/-- The event is a configuration batch sent with `SendConfigs`. -/
def Event.isSendConfigs : Event → Bool
  | Event.sendConfigs _ _ => true
  | _ => false

/-- A batch is clean: it was sent without a send error, no response is marked failed and no
response contains `"error:"`. -/
def cleanBatch (res : Outcome MultiResponse) : Bool :=
  match res with
  | Outcome.ok m =>
    m.Responses.all fun r => r.Failed.isNone && !stringsContains r.Result "error:"
  | Outcome.error _ => false

/-- The transport reports a failed command in a batch: the send returns an error or some
response has its failure indicator set. -/
def transportFailed (res : Outcome MultiResponse) : Bool :=
  match res with
  | Outcome.ok m => m.Responses.any fun r => r.Failed.isSome
  | Outcome.error _ => true

/-! ## Stubs and sample inputs -/

/-- A stub in which every call succeeds and a batch gets no response; the state counts the
batches sent with `SendCommands`. -/
def quietStub : Collab Nat :=
  { Watch := fun s => (none, s)
    GetCLIConn := fun s _ => (none, s)
    IsAlive := fun _ => true
    SendCommands := fun s _ => (Outcome.ok ⟨[], none⟩, s + 1)
    SendConfigs := fun s _ => (Outcome.ok ⟨[], none⟩, s)
    Close := fun s => (none, s)
    JoinedResult := fun m => "\n".intercalate (m.Responses.map fun r => r.Result)
    NewCfg := fun s _ _ => (none, s)
    Prepare := fun s => (none, s)
    LoadConfig := fun s _ _ => (Outcome.ok ⟨"", none⟩, s)
    CommitConfig := fun s => (Outcome.ok ⟨"", none⟩, s) }

/-- A stub that gives the batch number `i` (from zero) the responses `batches i`. -/
def scriptedStub (batches : Nat → Outcome MultiResponse) : Collab Nat :=
  { quietStub with SendCommands := fun s _ => (batches s, s + 1) }

/-- A transport that answers every command of poll number `i` (from zero) with the text
`texts i`, without a failure indicator. -/
def answering (texts : Nat → String) : Collab Nat :=
  { quietStub with
    SendCommands := fun s commands =>
      (Outcome.ok ⟨commands.map fun _ => ⟨texts s, none⟩, none⟩, s + 1) }

/-- The texts of a transport that answers `"error:"` to the first `N` polls and
`"successfully"` from then on. -/
def readyAfter (N : Nat) (i : Nat) : String :=
  if i < N then "error:" else "successfully"

/-- A node description that asks for the self-signed certificate `grpc-server-cert`. -/
def certProto : TpbNode :=
  { Name := "r1", Labels := none, Constraints := none, Services := none
    Config := some { emptyConfig with
      Cert := some ⟨some ⟨"grpc-server-cert", "my_key", 2048, "r1"⟩⟩ } }

/-- A node with the certificate spec of `certProto` on the collaborators `ext`. -/
def certNode (ext : Collab Nat) : Node Nat :=
  { Proto := some certProto, Name := "r1", testOpts := [], ext := ext }

/-- A node without a certificate spec, as `New` builds it from a nil-configured description. -/
def plainNode (ext : Collab Nat) : Node Nat :=
  { Proto := some (defaults none), Name := "default_cptx_node", testOpts := [], ext := ext }

/-- The world before an operation starts. -/
def freshWorld : World Nat :=
  { dev := 0, clock := 0, trace := [], logs := [] }

/-- A transport on which every send fails. -/
def lostBatch : Nat → Outcome MultiResponse :=
  fun _ => Outcome.error ⟨"connection lost"⟩

/-- A batch whose first response reports success and whose second response is marked failed. -/
def maskedFailureBatch : MultiResponse :=
  { Responses := [ ⟨"Generated key pair successfully", none⟩,
                   ⟨"syntax error", some ⟨"operation failed"⟩⟩ ]
    Failed := some ⟨"operation failed"⟩ }

/-- A batch without a failure indicator whose first response contains `"error:"` and whose
second response contains `"successfully"`. -/
def mixedTextBatch : MultiResponse :=
  { Responses := [ ⟨"error: key pair already exists", none⟩,
                   ⟨"Self-signed certificate generated and loaded successfully", none⟩ ]
    Failed := none }

/-! ## Properties of `defaults` -/

theorem entryCommand_ne_empty (name : String) :
    "kubectl exec -it " ++ name ++ " -- cli -c" ≠ "" := by
  intro h
  have hl := congrArg String.length h
  simp only [String.length_append] at hl
  have h1 : "kubectl exec -it ".length = 17 := by decide
  have h2 : "".length = 0 := by decide
  omega

/-- Field by field, what the six configuration steps compute. -/
theorem defaultsConfig_eq (name : String) (c : TpbConfig) :
    defaultsConfig name c =
      { Command := if c.Command.length = 0 then ["/entrypoint.sh"] else c.Command
        Args := c.Args
        Image := if c.Image = "" then "cptx:latest" else c.Image
        Env := if c.Env.isNone then some defaultEnv
          else c.Env
        EntryCommand := if c.EntryCommand = "" then "kubectl exec -it " ++ name ++ " -- cli -c"
          else c.EntryCommand
        ConfigPath := if c.ConfigPath = "" then "/home/evo/configdisk" else c.ConfigPath
        ConfigFile := if c.ConfigFile = "" then "juniper.conf" else c.ConfigFile
        Sleep := c.Sleep
        Cert := c.Cert
        InitImage := c.InitImage } := by
  have e1 : ∀ c, fillCommand c = { c with
      Command := if c.Command.length = 0 then ["/entrypoint.sh"] else c.Command } := by
    intro c; unfold fillCommand GetCommand; split <;> simp [*]
  have e2 : ∀ c, fillImage c = { c with
      Image := if c.Image = "" then "cptx:latest" else c.Image } := by
    intro c; unfold fillImage; split <;> simp [*]
  have e3 : ∀ c, fillEnv c = { c with
      Env := if c.Env.isNone then some defaultEnv
      else c.Env } := by
    intro c; unfold fillEnv; split <;> simp [*]
  have e4 : ∀ c, fillEntryCommand name c = { c with
      EntryCommand := if c.EntryCommand = "" then "kubectl exec -it " ++ name ++ " -- cli -c"
      else c.EntryCommand } := by
    intro c; unfold fillEntryCommand; split <;> simp [*]
  have e5 : ∀ c, fillConfigPath c = { c with
      ConfigPath := if c.ConfigPath = "" then "/home/evo/configdisk" else c.ConfigPath } := by
    intro c; unfold fillConfigPath; split <;> simp [*]
  have e6 : ∀ c, fillConfigFile c = { c with
      ConfigFile := if c.ConfigFile = "" then "juniper.conf" else c.ConfigFile } := by
    intro c; unfold fillConfigFile; split <;> simp [*]
  simp only [defaultsConfig, e1, e2, e3, e4, e5, e6]

/-- Field by field, what `defaults` computes. -/
theorem defaults_eq (pb : Option TpbNode) :
    defaults pb =
      { Name := (pb.getD nilNode).Name
        Labels := some (labelsAfter (pb.getD nilNode).Labels)
        Config := some (defaultsConfig (pb.getD nilNode).Name
          ((pb.getD nilNode).Config.getD emptyConfig))
        Constraints := if (pb.getD nilNode).Constraints.isNone then
            some defaultConstraints
          else (pb.getD nilNode).Constraints
        Services := if (pb.getD nilNode).Services.isNone then
            some defaultServices
          else (pb.getD nilNode).Services } := by
  have hx : (match pb with | none => nilNode | some x => x) = pb.getD nilNode := by
    cases pb <;> rfl
  have e1 : ∀ x, fillConstraints x = { x with
      Constraints := if x.Constraints.isNone then
        some defaultConstraints
      else x.Constraints } := by
    intro x; unfold fillConstraints; split <;> simp [*]
  have e2 : ∀ x, fillServices x = { x with
      Services := if x.Services.isNone then
        some defaultServices
      else x.Services } := by
    intro x; unfold fillServices; split <;> simp [*]
  have e3 : ∀ x, fillVendor (fillLabels x) = { x with Labels := some (labelsAfter x.Labels) } := by
    intro x
    obtain ⟨n, l, c, cs, sv⟩ := x
    cases l with
    | none =>
      simp [fillVendor, fillLabels, labelsAfter, mapIndex]
    | some m =>
      by_cases hv : mapIndex (some m) "vendor" = "" <;>
        simp [fillVendor, fillLabels, labelsAfter, hv]
  have e4 : ∀ x, fillConfig x = { x with Config := some (x.Config.getD emptyConfig) } := by
    intro x
    obtain ⟨n, l, c, cs, sv⟩ := x
    cases c <;> simp [fillConfig]
  simp only [defaults, hx, e1, e2, e3, e4, Option.map_some']

theorem labelsAfter_vendor (l : Option (GoMap String String)) :
    mapIndex (some (labelsAfter l)) "vendor" ≠ "" := by
  unfold labelsAfter
  simp only []
  split
  · simp [mapIndex, GoMap.set, vendorJuniper]
  · assumption

theorem labelsAfter_of_vendor (m : GoMap String String)
    (h : mapIndex (some m) "vendor" ≠ "") : labelsAfter (some m) = m := by
  simp [labelsAfter, h]

theorem labelsAfter_other (m : GoMap String String) (k : String) (hk : k ≠ "vendor") :
    labelsAfter (some m) k = m k := by
  unfold labelsAfter
  simp only [Option.getD_some]
  split
  · simp [GoMap.set, hk]
  · rfl

theorem defaultsConfig_filled (name : String) (c : TpbConfig) :
    ConfigFilled (defaultsConfig name c) := by
  have he := entryCommand_ne_empty name
  rw [defaultsConfig_eq]
  refine ⟨?_, ?_, ?_, ?_, ?_, ?_⟩ <;> simp only [] <;> split <;> simp_all [Option.isSome_iff_ne_none]

theorem defaultsConfig_of_filled (name : String) (c : TpbConfig) (h : ConfigFilled c) :
    defaultsConfig name c = c := by
  obtain ⟨h1, h2, h3, h4, h5, h6⟩ := h
  rw [defaultsConfig_eq]
  simp [h1, h2, h3, h4, h5, h6]

theorem defaults_filled (pb : Option TpbNode) : NodeFilled (defaults pb) := by
  rw [defaults_eq]
  refine ⟨?_, ?_, rfl, labelsAfter_vendor _, _, rfl, defaultsConfig_filled _ _⟩ <;>
    simp only [] <;> split <;> simp_all [Option.isSome_iff_ne_none]

theorem defaults_of_filled (pb : TpbNode) (h : NodeFilled pb) : defaults (some pb) = pb := by
  obtain ⟨h1, h2, h3, h4, c, hc, hf⟩ := h
  obtain ⟨n, l, cfg, cs, sv⟩ := pb
  simp only at h1 h2 h3 h4 hc
  subst hc
  cases l with
  | none => simp at h3
  | some m =>
    rw [defaults_eq]
    simp [h1, h2, labelsAfter_of_vendor m h4, defaultsConfig_of_filled n c hf]

/-- C10, as stated, fails: a non-nil `Labels` map without a vendor entry does not keep its
value, `defaults` writes the vendor into it. -/
theorem defaults_changes_set_labels :
    labelledNode.Labels ≠ none ∧
      (defaults (some labelledNode)).Labels ≠ labelledNode.Labels := by
  refine ⟨by simp [labelledNode], ?_⟩
  rw [defaults_eq]
  intro h
  have h1 := congrArg (fun l => mapIndex l "vendor") h
  simp [labelledNode, labelsAfter, mapIndex, GoMap.set, vendorJuniper] at h1

theorem labelsAfter_vendor_written (m : GoMap String String)
    (h : mapIndex (some m) "vendor" = "") : labelsAfter (some m) "vendor" = some vendorJuniper := by
  simp [labelsAfter, h, GoMap.set]

/-- C10, amended: `defaults` is idempotent and leaves every field it looks at set; on a
non-nil description every set field keeps its value (non-nil Constraints, Services, Env;
non-empty vendor label, Command, Image, EntryCommand, ConfigPath, ConfigFile), while a non-nil
Labels map keeps every entry other than the vendor one, is unchanged altogether when its
vendor label is non-empty, and otherwise gets the entry vendor = JUNIPER written into it. -/
theorem defaults_idempotent_fills_missing (pb : Option TpbNode) :
    defaults (some (defaults pb)) = defaults pb ∧
    NodeFilled (defaults pb) ∧
    ∀ x, pb = some x →
      (x.Constraints ≠ none → (defaults pb).Constraints = x.Constraints) ∧
      (x.Services ≠ none → (defaults pb).Services = x.Services) ∧
      (∀ m, x.Labels = some m → ∃ m2, (defaults pb).Labels = some m2 ∧
        (∀ k, k ≠ "vendor" → m2 k = m k) ∧ (mapIndex (some m) "vendor" ≠ "" → m2 = m) ∧
        (mapIndex (some m) "vendor" = "" → m2 "vendor" = some vendorJuniper)) ∧
      (mapIndex x.Labels "vendor" ≠ "" →
        mapIndex (defaults pb).Labels "vendor" = mapIndex x.Labels "vendor") ∧
      (∀ c, x.Config = some c → ∃ d, (defaults pb).Config = some d ∧
        (c.Env ≠ none → d.Env = c.Env) ∧
        (c.Command ≠ [] → d.Command = c.Command) ∧
        (c.Image ≠ "" → d.Image = c.Image) ∧
        (c.EntryCommand ≠ "" → d.EntryCommand = c.EntryCommand) ∧
        (c.ConfigPath ≠ "" → d.ConfigPath = c.ConfigPath) ∧
        (c.ConfigFile ≠ "" → d.ConfigFile = c.ConfigFile)) := by
  refine ⟨defaults_of_filled _ (defaults_filled pb), defaults_filled pb, ?_⟩
  rintro x rfl
  rw [defaults_eq]
  simp only [Option.getD_some]
  refine ⟨?_, ?_, ?_, ?_, ?_⟩
  · intro h
    cases hc : x.Constraints with
    | none => exact absurd hc h
    | some m => simp
  · intro h
    cases hc : x.Services with
    | none => exact absurd hc h
    | some m => simp
  · intro m hm
    refine ⟨labelsAfter (some m), by rw [hm], ?_, ?_, ?_⟩
    · intro k hk
      exact labelsAfter_other m k hk
    · intro hv
      exact labelsAfter_of_vendor m hv
    · intro hv
      exact labelsAfter_vendor_written m hv
  · intro hv
    cases hl : x.Labels with
    | none => rw [hl] at hv; simp [mapIndex] at hv
    | some m =>
      rw [hl] at hv
      rw [labelsAfter_of_vendor m hv]
  · intro c hc
    refine ⟨_, rfl, ?_⟩
    rw [hc, defaultsConfig_eq]
    simp only [Option.getD_some]
    refine ⟨?_, ?_, ?_, ?_, ?_, ?_⟩
    · intro h
      cases he : c.Env with
      | none => exact absurd he h
      | some m => simp
    · intro h
      have : c.Command.length ≠ 0 := by simpa using h
      simp [this]
    · intro h; simp [h]
    · intro h; simp [h]
    · intro h; simp [h]
    · intro h; simp [h]

/-- C10, amended, at `filledNode`, where every field is set and each one keeps its value, and
at `labelledNode`, whose labels lack the vendor: the entry `topo` stays and the vendor is
written. -/
theorem defaults_idempotent_fills_missing_witness :
    (defaults (some filledNode)).Constraints = filledNode.Constraints ∧
      (defaults (some filledNode)).Services = filledNode.Services ∧
      (∃ m2, (defaults (some filledNode)).Labels = some m2 ∧
        m2 = fun k => if k = "vendor" then some "ACME" else none) ∧
      mapIndex (defaults (some filledNode)).Labels "vendor" = "ACME" ∧
      (∃ d, (defaults (some filledNode)).Config = some d ∧ d.Env = some (fun _ => none) ∧
        d.Command = ["/sbin/init"] ∧ d.Image = "cptx:1.0" ∧ d.EntryCommand = "cli" ∧
        d.ConfigPath = "/config" ∧ d.ConfigFile = "startup.conf") ∧
      (∃ m2, (defaults (some labelledNode)).Labels = some m2 ∧
        m2 "topo" = some "lab" ∧ m2 "vendor" = some "JUNIPER") := by
  have h := (defaults_idempotent_fills_missing (some filledNode)).2.2 filledNode rfl
  have g := (defaults_idempotent_fills_missing (some labelledNode)).2.2 labelledNode rfl
  have hv : mapIndex filledNode.Labels "vendor" = "ACME" := by
    simp [filledNode, mapIndex]
  refine ⟨h.1 (by simp [filledNode]), h.2.1 (by simp [filledNode]), ?_, ?_, ?_, ?_⟩
  · obtain ⟨m2, h1, _, h3, _⟩ := h.2.2.1 _ rfl
    exact ⟨m2, h1, h3 (by rw [show mapIndex (some _) "vendor" = "ACME" from hv]; decide)⟩
  · rw [h.2.2.2.1 (by rw [hv]; decide), hv]
  · obtain ⟨d, h1, h2, h3, h4, h5, h6, h7⟩ := h.2.2.2.2 _ rfl
    exact ⟨d, h1, h2 (by simp), h3 (by simp), h4 (by decide), h5 (by decide), h6 (by decide),
      h7 (by decide)⟩
  · obtain ⟨m2, g1, g2, _, g4⟩ := g.2.2.1 _ rfl
    refine ⟨m2, g1, ?_, g4 (by simp [mapIndex])⟩
    rw [g2 "topo" (by decide)]
    simp

/-! ## Properties of `ConfigPush` -/

theorem utf8ByteSize_go_pos (c : Char) (cs : List Char) :
    0 < String.utf8ByteSize.go (c :: cs) := by
  have h := Char.utf8Size_pos c
  simp only [String.utf8ByteSize.go]
  omega

theorem utf8ByteSize_ne_zero (s : String) (h : s ≠ "") : s.utf8ByteSize ≠ 0 := by
  obtain ⟨l⟩ := s
  cases l with
  | nil => exact absurd rfl h
  | cons c cs =>
    have := utf8ByteSize_go_pos c cs
    simp only [String.utf8ByteSize]
    omega

/-- What `configPushBody` adds to the trace, case by case on what the steps return. -/
theorem configPushBody_cases (n : Node σ) (cfgs : String) (w : World σ) :
    ∃ e0, ∃ evs : List Event,
      e0 = (n.ext.NewCfg w.dev "juniper_junos" (candidateName n)).1 ∧
      (configPushBody n cfgs w).2.trace =
        w.trace ++ Event.newCfg "juniper_junos" (candidateName n) e0 :: evs ∧
      ((e0 ≠ none ∧ evs = [] ∧ (configPushBody n cfgs w).1 ≠ none) ∨
       (e0 = none ∧ ∃ p, p ≠ none ∧ evs = [Event.prepare p] ∧
          (configPushBody n cfgs w).1 ≠ none) ∨
       (e0 = none ∧ ∃ l, cfgSucceeded l = false ∧
          evs = [Event.prepare none, Event.loadConfig cfgs false l] ∧
          (configPushBody n cfgs w).1 ≠ none) ∨
       (e0 = none ∧ ∃ l c, cfgSucceeded l = true ∧ cfgSucceeded c = false ∧
          evs = [Event.prepare none, Event.loadConfig cfgs false l, Event.commitConfig c] ∧
          (configPushBody n cfgs w).1 ≠ none) ∨
       (e0 = none ∧ ∃ l c, cfgSucceeded l = true ∧ cfgSucceeded c = true ∧
          evs = [Event.prepare none, Event.loadConfig cfgs false l, Event.commitConfig c] ∧
          (configPushBody n cfgs w).1 = none)) := by
  unfold configPushBody candidateName
  simp only [World.call, logInfof]
  generalize (if n.testOpts.length ≠ 0 then "scrapli_cfg_testing" else "") = cand
  generalize n.ext.NewCfg w.dev "juniper_junos" cand = r0
  obtain ⟨e0, s1⟩ := r0
  refine ⟨e0, ?_⟩
  cases e0 with
  | some err => exact ⟨[], rfl, by simp, Or.inl ⟨by simp, rfl, by simp⟩⟩
  | none =>
    dsimp only
    generalize n.ext.Prepare s1 = r1
    obtain ⟨e1, s2⟩ := r1
    cases e1 with
    | some err =>
      exact ⟨[Event.prepare (some err)], rfl, by simp,
        Or.inr (Or.inl ⟨rfl, some err, by simp, rfl, by simp⟩)⟩
    | none =>
      dsimp only
      generalize n.ext.LoadConfig s2 cfgs false = r2
      obtain ⟨l, s3⟩ := r2
      cases hl : cfgSucceeded l with
      | false =>
        refine ⟨[Event.prepare none, Event.loadConfig cfgs false l], rfl, ?_,
          Or.inr (Or.inr (Or.inl ⟨rfl, l, hl, rfl, ?_⟩))⟩
        · cases l with
          | error err => simp
          | ok resp =>
            cases hf : resp.Failed with
            | none => simp [cfgSucceeded, hf] at hl
            | some failed => simp [hf]
        · cases l with
          | error err => simp
          | ok resp =>
            cases hf : resp.Failed with
            | none => simp [cfgSucceeded, hf] at hl
            | some failed => simp [hf]
      | true =>
        cases l with
        | error err => simp [cfgSucceeded] at hl
        | ok resp =>
          have hf : resp.Failed = none := by simpa [cfgSucceeded] using hl
          simp only [hf]
          generalize n.ext.CommitConfig s3 = r3
          obtain ⟨c, s4⟩ := r3
          cases hc : cfgSucceeded c with
          | false =>
            refine ⟨[Event.prepare none, Event.loadConfig cfgs false (Outcome.ok resp),
                Event.commitConfig c], (by first | rfl | trivial), ?_,
              Or.inr (Or.inr (Or.inr (Or.inl ⟨trivial, _, c, hl, hc, rfl, ?_⟩)))⟩
            · cases c with
              | error err => simp
              | ok resp2 =>
                cases hf2 : resp2.Failed with
                | none => simp [cfgSucceeded, hf2] at hc
                | some failed => simp [hf2]
            · cases c with
              | error err => simp
              | ok resp2 =>
                cases hf2 : resp2.Failed with
                | none => simp [cfgSucceeded, hf2] at hc
                | some failed => simp [hf2]
          | true =>
            cases c with
            | error err => simp [cfgSucceeded] at hc
            | ok resp2 =>
              have hf2 : resp2.Failed = none := by simpa [cfgSucceeded] using hc
              exact ⟨[Event.prepare none, Event.loadConfig cfgs false (Outcome.ok resp),
                  Event.commitConfig (Outcome.ok resp2)], (by first | rfl | trivial), by simp [hf2],
                Or.inr (Or.inr (Or.inr (Or.inr ⟨trivial, _, _, hl, hc, rfl, by simp [hf2]⟩)))⟩

theorem configPush_after_open (n : Node σ) (cfg : String) (w : World σ) (hne : cfg ≠ "")
    (hopen : (n.ext.GetCLIConn w.dev scrapliPlatformName).1 = none) :
    ConfigPush n cfg none w =
      ((configPushBody n cfg (SpawnCLIConn n (logInfof (n.Name ++ " - pushing config") w)).2).1,
        deferredClose n
          (configPushBody n cfg
            (SpawnCLIConn n (logInfof (n.Name ++ " - pushing config") w)).2).2) := by
  have hsz := utf8ByteSize_ne_zero cfg hne
  have ho : (SpawnCLIConn n (logInfof (n.Name ++ " - pushing config") w)).1 = none := hopen
  unfold ConfigPush
  simp only [hsz, if_false]
  rw [ho]

/-- C1: for a non-empty configuration text and any behaviour of the collaborators after a
successful open, `ConfigPush` makes these calls and no other: the open, the construction of
the transaction handle, transaction steps, the close. The steps are a prefix of prepare, load
of the text in merge mode, commit; every issued step but the last reported success, so
nothing is issued after a failed step; it returns no error exactly when all three steps were
issued and reported success; and when the collaborator builds the handle, the steps stop only
at a step that failed: if every issued step reported success, all three were issued. -/
theorem configPush_transaction (n : Node σ) (cfg : String) (w : World σ) (hne : cfg ≠ "")
    (hopen : (n.ext.GetCLIConn w.dev scrapliPlatformName).1 = none) :
    ∃ steps c, (ConfigPush n cfg none w).2.trace =
        w.trace ++ Event.openConn scrapliPlatformName none ::
          Event.newCfg "juniper_junos" (candidateName n)
            (n.ext.NewCfg (n.ext.GetCLIConn w.dev scrapliPlatformName).2 "juniper_junos"
              (candidateName n)).1 :: (steps ++ [Event.close c]) ∧
      (∀ e ∈ steps, (Event.txStep e).isSome = true) ∧
      (txSteps steps).map Prod.fst <+: [TxStep.prepare, TxStep.load cfg false, TxStep.commit] ∧
      (∀ s ∈ (txSteps steps).dropLast, s.2 = true) ∧
      ((ConfigPush n cfg none w).1 = none ↔
        txSteps steps =
          [(TxStep.prepare, true), (TxStep.load cfg false, true), (TxStep.commit, true)]) ∧
      ((n.ext.NewCfg (n.ext.GetCLIConn w.dev scrapliPlatformName).2 "juniper_junos"
          (candidateName n)).1 = none →
        (∀ s ∈ txSteps steps, s.2 = true) → (txSteps steps).length = 3) := by
  rw [configPush_after_open n cfg w hne hopen]
  generalize hw1 : (SpawnCLIConn n (logInfof (n.Name ++ " - pushing config") w)).2 = w1
  have ht1 : w1.trace = w.trace ++ [Event.openConn scrapliPlatformName none] := by
    rw [← hw1]
    simp [SpawnCLIConn, World.call, logInfof, hopen]
  have hd1 : w1.dev = (n.ext.GetCLIConn w.dev scrapliPlatformName).2 := by
    rw [← hw1]
    rfl
  obtain ⟨e0, evs, he0, htr, hcases⟩ := configPushBody_cases n cfg w1
  rw [hd1] at he0
  rw [← he0]
  generalize configPushBody n cfg w1 = b at htr hcases
  refine ⟨evs, (n.ext.Close b.2.dev).1, ?_, ?_⟩
  · simp [deferredClose, World.call, htr, ht1]
  · rcases hcases with ⟨h0, rfl, hr⟩ | ⟨rfl, p, hp, rfl, hr⟩ | ⟨rfl, l, hl, rfl, hr⟩ |
      ⟨rfl, l, c, hl, hc, rfl, hr⟩ | ⟨rfl, l, c, hl, hc, rfl, hr⟩
    · exact ⟨by simp, by simp [txSteps], by simp [txSteps], by simp [txSteps, hr],
        fun h => absurd h h0⟩
    · cases p with
      | none => exact absurd rfl hp
      | some err =>
        refine ⟨by simp [Event.txStep], by simp [txSteps, Event.txStep],
          by simp [txSteps, Event.txStep], by simp [txSteps, Event.txStep, hr], ?_⟩
        intro _ hall
        simp [txSteps, Event.txStep] at hall
    · refine ⟨by simp [Event.txStep], by simp [txSteps, Event.txStep],
        by simp [txSteps, Event.txStep], by simp [txSteps, Event.txStep, hr, hl], ?_⟩
      intro _ hall
      simp [txSteps, Event.txStep, hl] at hall
    · refine ⟨by simp [Event.txStep], by simp [txSteps, Event.txStep],
        by simp [txSteps, Event.txStep, hl], by simp [txSteps, Event.txStep, hr, hl, hc], ?_⟩
      intro _ hall
      simp [txSteps, Event.txStep, hl, hc] at hall
    · refine ⟨by simp [Event.txStep], by simp [txSteps, Event.txStep],
        by simp [txSteps, Event.txStep, hl], by simp [txSteps, Event.txStep, hr, hl, hc], ?_⟩
      intro _ _
      simp [txSteps, Event.txStep]

/-- C1 at a stub that accepts prepare, load and commit, for a one-line configuration; there
the calls are open, handle, prepare, load in merge mode, commit, close, and no error is
returned. -/
theorem configPush_transaction_witness :
    (∃ steps c, (ConfigPush (plainNode quietStub)
          "set interfaces ge-0/0/0 unit 0 family inet address 1.1.1.1/30" none
          freshWorld).2.trace =
          freshWorld.trace ++ Event.openConn scrapliPlatformName none ::
            Event.newCfg "juniper_junos" (candidateName (plainNode quietStub))
              ((plainNode quietStub).ext.NewCfg
                ((plainNode quietStub).ext.GetCLIConn freshWorld.dev scrapliPlatformName).2
                "juniper_junos" (candidateName (plainNode quietStub))).1 ::
              (steps ++ [Event.close c]) ∧
        (∀ e ∈ steps, (Event.txStep e).isSome = true) ∧
        (txSteps steps).map Prod.fst <+: [TxStep.prepare,
          TxStep.load "set interfaces ge-0/0/0 unit 0 family inet address 1.1.1.1/30" false,
          TxStep.commit] ∧
        (∀ s ∈ (txSteps steps).dropLast, s.2 = true) ∧
        ((ConfigPush (plainNode quietStub)
            "set interfaces ge-0/0/0 unit 0 family inet address 1.1.1.1/30" none
            freshWorld).1 = none ↔
          txSteps steps =
            [(TxStep.prepare, true),
              (TxStep.load "set interfaces ge-0/0/0 unit 0 family inet address 1.1.1.1/30"
                false, true),
              (TxStep.commit, true)]) ∧
        (((plainNode quietStub).ext.NewCfg
            ((plainNode quietStub).ext.GetCLIConn freshWorld.dev scrapliPlatformName).2
            "juniper_junos" (candidateName (plainNode quietStub))).1 = none →
          (∀ s ∈ txSteps steps, s.2 = true) → (txSteps steps).length = 3)) ∧
      (ConfigPush (plainNode quietStub)
        "set interfaces ge-0/0/0 unit 0 family inet address 1.1.1.1/30" none
        freshWorld).1 = none ∧
      (ConfigPush (plainNode quietStub)
        "set interfaces ge-0/0/0 unit 0 family inet address 1.1.1.1/30" none
        freshWorld).2.trace =
        [ Event.openConn "juniper_junos" none, Event.newCfg "juniper_junos" "" none,
          Event.prepare none,
          Event.loadConfig "set interfaces ge-0/0/0 unit 0 family inet address 1.1.1.1/30"
            false (Outcome.ok ⟨"", none⟩),
          Event.commitConfig (Outcome.ok ⟨"", none⟩), Event.close none ] :=
  ⟨configPush_transaction (plainNode quietStub)
      "set interfaces ge-0/0/0 unit 0 family inet address 1.1.1.1/30" freshWorld
      (by decide) rfl,
    by decide, by decide⟩

/-- C7: when the reader yields zero bytes, whatever error comes with them, `ConfigPush`
returns no error and makes no call at all: no open, no prepare, load or commit. -/
theorem configPush_empty_config (n : Node σ) (cfg : String) (readErr : Option GoError)
    (w : World σ) (hempty : cfg.utf8ByteSize = 0) :
    (ConfigPush n cfg readErr w).1 = none ∧
      (ConfigPush n cfg readErr w).2.trace = w.trace ∧
      (ConfigPush n cfg readErr w).2.dev = w.dev := by
  unfold ConfigPush
  simp [hempty, logInfof]

/-- C7 at the empty text, read without an error. -/
theorem configPush_empty_config_witness :
    (ConfigPush (plainNode quietStub) "" none freshWorld).1 = none ∧
      (ConfigPush (plainNode quietStub) "" none freshWorld).2.trace = freshWorld.trace ∧
      (ConfigPush (plainNode quietStub) "" none freshWorld).2.dev = freshWorld.dev :=
  configPush_empty_config (plainNode quietStub) "" none freshWorld (by decide)

/-- C9: the test for an empty configuration comes before the test of the read error. With a
read error `err`, `ConfigPush` returns nil when zero bytes were read and `err` when at least
one byte was read, and in both cases it opens no session. -/
theorem configPush_empty_before_read_error (n : Node σ) (cfg : String) (err : GoError)
    (w : World σ) :
    (ConfigPush n cfg (some err) w).1 = (if cfg.utf8ByteSize = 0 then none else some err) ∧
      (ConfigPush n cfg (some err) w).2.trace = w.trace := by
  unfold ConfigPush
  by_cases h : cfg.utf8ByteSize = 0 <;> simp [h, logInfof]

/-- After a successful open `ConfigPush` closes the session once, as its last call. -/
theorem configPush_closes_once (n : Node σ) (cfg : String) (w : World σ) (hne : cfg ≠ "")
    (hopen : (n.ext.GetCLIConn w.dev scrapliPlatformName).1 = none) :
    ∃ evs c, (ConfigPush n cfg none w).2.trace = w.trace ++ evs ++ [Event.close c] ∧
      evs.countP Event.isClose = 0 := by
  rw [configPush_after_open n cfg w hne hopen]
  generalize hw1 : (SpawnCLIConn n (logInfof (n.Name ++ " - pushing config") w)).2 = w1
  have ht1 : w1.trace = w.trace ++ [Event.openConn scrapliPlatformName none] := by
    rw [← hw1]
    simp [SpawnCLIConn, World.call, logInfof, hopen]
  obtain ⟨e0, evs, _, htr, hcases⟩ := configPushBody_cases n cfg w1
  generalize configPushBody n cfg w1 = b at htr hcases
  refine ⟨Event.openConn scrapliPlatformName none ::
      Event.newCfg "juniper_junos" (candidateName n) e0 :: evs,
    (n.ext.Close b.2.dev).1, ?_, ?_⟩
  · simp [deferredClose, World.call, htr, ht1]
  · rcases hcases with ⟨_, rfl, _⟩ | ⟨_, p, _, rfl, _⟩ | ⟨_, l, _, rfl, _⟩ |
      ⟨_, l, c, _, _, rfl, _⟩ | ⟨_, l, c, _, _, rfl, _⟩ <;>
      simp [List.countP_cons, Event.isClose]

/-! ## Properties of `ResetCfg` -/

theorem scanResetResponses_none_iff (n : Node σ) (what : String) (m : MultiResponse)
    (rs : List Response) :
    scanResetResponses n what m rs = none ↔
      (rs.all fun r => r.Failed.isNone && !stringsContains r.Result "error:") = true := by
  induction rs with
  | nil => simp [scanResetResponses]
  | cons resp rest ih =>
    unfold scanResetResponses
    cases hf : resp.Failed with
    | some failed => simp [hf]
    | none =>
      by_cases he : stringsContains resp.Result "error:" = true
      · simp [hf, he]
      · simp [hf, he, ih]

/-- What `resetCfgBody` returns and adds to the trace, by whether the batches are clean. -/
theorem resetCfgBody_cases (n : Node σ) (w : World σ) :
    ∃ r1, ∃ evs : List Event,
      (resetCfgBody n w).2.trace = w.trace ++ Event.sendConfigs resetConfigs r1 :: evs ∧
      ((cleanBatch r1 = false ∧ evs = [] ∧ (resetCfgBody n w).1 ≠ none) ∨
       (cleanBatch r1 = true ∧ ∃ r2, evs = [Event.sendConfigs GRPCConfig r2] ∧
          ((resetCfgBody n w).1 = none ↔ cleanBatch r2 = true))) := by
  unfold resetCfgBody
  simp only [World.call, logInfof]
  generalize n.ext.SendConfigs w.dev resetConfigs = r
  obtain ⟨r1, s1⟩ := r
  refine ⟨r1, ?_⟩
  cases r1 with
  | error err => exact ⟨[], by simp, Or.inl ⟨rfl, rfl, by simp⟩⟩
  | ok m1 =>
    dsimp only
    cases h1 : scanResetResponses n "failed sending config-reset commands: " m1 m1.Responses with
    | some err =>
      have hc : cleanBatch (Outcome.ok m1) = false := by
        cases hcb : cleanBatch (Outcome.ok m1) with
        | false => rfl
        | true =>
          rw [(scanResetResponses_none_iff n _ m1 m1.Responses).mpr hcb] at h1
          exact absurd h1 (by simp)
      exact ⟨[], by simp, Or.inl ⟨hc, rfl, by simp⟩⟩
    | none =>
      have hc : cleanBatch (Outcome.ok m1) = true :=
        (scanResetResponses_none_iff n _ m1 m1.Responses).mp h1
      dsimp only
      generalize n.ext.SendConfigs s1 GRPCConfig = g
      obtain ⟨r2, s2⟩ := g
      refine ⟨[Event.sendConfigs GRPCConfig r2], ?_, Or.inr ⟨hc, r2, rfl, ?_⟩⟩
      · cases r2 with
        | error err => simp
        | ok m2 =>
          dsimp only
          cases scanResetResponses n "failed sending gRPC commands: " m2 m2.Responses <;> simp
      · cases r2 with
        | error err => simp [cleanBatch]
        | ok m2 =>
          dsimp only
          cases h2 : scanResetResponses n "failed sending gRPC commands: " m2 m2.Responses with
          | some err =>
            have hc2 : cleanBatch (Outcome.ok m2) = false := by
              cases hcb : cleanBatch (Outcome.ok m2) with
              | false => rfl
              | true =>
                rw [(scanResetResponses_none_iff n _ m2 m2.Responses).mpr hcb] at h2
                exact absurd h2 (by simp)
            simp [hc2]
          | none =>
            have hc2 : cleanBatch (Outcome.ok m2) = true :=
              (scanResetResponses_none_iff n _ m2 m2.Responses).mp h2
            simp [hc2]

theorem resetCfg_after_open (n : Node σ) (w : World σ)
    (hopen : (n.ext.GetCLIConn w.dev scrapliPlatformName).1 = none) :
    ResetCfg n w =
      ((resetCfgBody n (SpawnCLIConn n (logInfof (n.Name ++ " - resetting config") w)).2).1,
        deferredClose n
          (resetCfgBody n (SpawnCLIConn n (logInfof (n.Name ++ " - resetting config") w)).2).2) := by
  have ho : (SpawnCLIConn n (logInfof (n.Name ++ " - resetting config") w)).1 = none := hopen
  unfold ResetCfg
  dsimp only
  rw [ho]

/-- The calls and the result of `ResetCfg` after a successful open, by the batches' outcomes. -/
theorem resetCfg_trace_and_result (n : Node σ) (w : World σ)
    (hopen : (n.ext.GetCLIConn w.dev scrapliPlatformName).1 = none) :
    ∃ r1 rest, (ResetCfg n w).2.trace =
        w.trace ++ Event.openConn scrapliPlatformName none ::
          Event.sendConfigs resetConfigs r1 :: rest ∧
      ((∃ r2, Event.sendConfigs GRPCConfig r2 ∈ rest) ↔ cleanBatch r1 = true) ∧
      ((ResetCfg n w).1 = none ↔
        cleanBatch r1 = true ∧
          ∃ r2 c, rest = [Event.sendConfigs GRPCConfig r2, Event.close c] ∧
            cleanBatch r2 = true) := by
  rw [resetCfg_after_open n w hopen]
  generalize hw1 : (SpawnCLIConn n (logInfof (n.Name ++ " - resetting config") w)).2 = w1
  have ht1 : w1.trace = w.trace ++ [Event.openConn scrapliPlatformName none] := by
    rw [← hw1]
    simp [SpawnCLIConn, World.call, logInfof, hopen]
  obtain ⟨r1, evs, htr, hcases⟩ := resetCfgBody_cases n w1
  generalize resetCfgBody n w1 = b at htr hcases
  refine ⟨r1, evs ++ [Event.close (n.ext.Close b.2.dev).1], ?_, ?_⟩
  · simp [deferredClose, World.call, htr, ht1]
  · rcases hcases with ⟨hc, rfl, hr⟩ | ⟨hc, r2, rfl, hr⟩
    · simp [hc, hr]
    · refine ⟨by simp [hc], ?_⟩
      simp [hc, hr]

/-- C6: after a successful open `ResetCfg` first sends the factory-reset batch, `load override
/var/vmguest/config/juniper.conf` and `commit`; it sends the gRPC-service batch exactly when
the factory-reset batch was clean (no send error, no response marked failed, no response
containing `"error:"`); and it returns no error exactly when both batches were sent and both
were clean. -/
theorem resetCfg_ok_iff_clean (n : Node σ) (w : World σ)
    (hopen : (n.ext.GetCLIConn w.dev scrapliPlatformName).1 = none) :
    ∃ r1 rest, (ResetCfg n w).2.trace =
        w.trace ++ Event.openConn scrapliPlatformName none ::
          Event.sendConfigs ["load override /var/vmguest/config/juniper.conf", "commit"] r1 ::
            rest ∧
      ((∃ r2, Event.sendConfigs GRPCConfig r2 ∈ rest) ↔ cleanBatch r1 = true) ∧
      ((ResetCfg n w).1 = none ↔
        cleanBatch r1 = true ∧
          ∃ r2 c, rest = [Event.sendConfigs GRPCConfig r2, Event.close c] ∧
            cleanBatch r2 = true) :=
  resetCfg_trace_and_result n w hopen

/-- C6 at a stub whose batches come back without responses. -/
theorem resetCfg_ok_iff_clean_witness :
    ∃ r1 rest, (ResetCfg (plainNode quietStub) freshWorld).2.trace =
        freshWorld.trace ++ Event.openConn scrapliPlatformName none ::
          Event.sendConfigs ["load override /var/vmguest/config/juniper.conf", "commit"] r1 ::
            rest ∧
      ((∃ r2, Event.sendConfigs GRPCConfig r2 ∈ rest) ↔ cleanBatch r1 = true) ∧
      ((ResetCfg (plainNode quietStub) freshWorld).1 = none ↔
        cleanBatch r1 = true ∧
          ∃ r2 c, rest = [Event.sendConfigs GRPCConfig r2, Event.close c] ∧
            cleanBatch r2 = true) :=
  resetCfg_ok_iff_clean (plainNode quietStub) freshWorld rfl

/-- After a successful open `ResetCfg` closes the session once, as its last call. -/
theorem resetCfg_closes_once (n : Node σ) (w : World σ)
    (hopen : (n.ext.GetCLIConn w.dev scrapliPlatformName).1 = none) :
    ∃ evs c, (ResetCfg n w).2.trace = w.trace ++ evs ++ [Event.close c] ∧
      evs.countP Event.isClose = 0 := by
  rw [resetCfg_after_open n w hopen]
  generalize hw1 : (SpawnCLIConn n (logInfof (n.Name ++ " - resetting config") w)).2 = w1
  have ht1 : w1.trace = w.trace ++ [Event.openConn scrapliPlatformName none] := by
    rw [← hw1]
    simp [SpawnCLIConn, World.call, logInfof, hopen]
  obtain ⟨r1, evs, htr, hcases⟩ := resetCfgBody_cases n w1
  generalize resetCfgBody n w1 = b at htr hcases
  refine ⟨Event.openConn scrapliPlatformName none :: Event.sendConfigs resetConfigs r1 :: evs,
    (n.ext.Close b.2.dev).1, ?_, ?_⟩
  · simp [deferredClose, World.call, htr, ht1]
  · rcases hcases with ⟨_, rfl, _⟩ | ⟨_, r2, rfl, _⟩ <;>
      simp [List.countP_cons, Event.isClose]

/-! ## Properties of the certificate bootstrap -/

theorem certPollLoop_timeout (n : Node σ) (commands : List String) (start : Nat) (w : World σ)
    (h : ¬ w.clock - start < certGenTimeout) :
    certPollLoop n commands start w =
      (some ⟨"failed sending generate-self-signed commands"⟩, w) := by
  rw [certPollLoop]
  simp [h]

theorem certPollLoop_send_error (n : Node σ) (commands : List String) (start : Nat)
    (w : World σ) (err : GoError) (h : w.clock - start < certGenTimeout)
    (hs : (n.ext.SendCommands w.dev commands).1 = Outcome.error err) :
    certPollLoop n commands start w =
      (some ⟨"failed sending generate-self-signed commands: " ++ err.msg⟩,
        w.call (Event.sendCommands commands (Outcome.error err))
          (n.ext.SendCommands w.dev commands).2) := by
  rw [certPollLoop]
  simp [h, hs]

theorem certPollLoop_returned (n : Node σ) (commands : List String) (start : Nat)
    (w : World σ) (m : MultiResponse) (ret : Option GoError)
    (h : w.clock - start < certGenTimeout)
    (hs : (n.ext.SendCommands w.dev commands).1 = Outcome.ok m)
    (hsc : (scanCertResponses n m m.Responses).1 = some ret) :
    certPollLoop n commands start w =
      (ret, logLines (scanCertResponses n m m.Responses).2
        (w.call (Event.sendCommands commands (Outcome.ok m))
          (n.ext.SendCommands w.dev commands).2)) := by
  rw [certPollLoop]
  simp [h, hs, hsc]

theorem certPollLoop_retry (n : Node σ) (commands : List String) (start : Nat)
    (w : World σ) (m : MultiResponse) (h : w.clock - start < certGenTimeout)
    (hs : (n.ext.SendCommands w.dev commands).1 = Outcome.ok m)
    (hsc : (scanCertResponses n m m.Responses).1 = none) :
    certPollLoop n commands start w =
      certPollLoop n commands start
        (timeSleep certPollInterval
          (logLines (scanCertResponses n m m.Responses).2
            (w.call (Event.sendCommands commands (Outcome.ok m))
              (n.ext.SendCommands w.dev commands).2))) := by
  rw [certPollLoop]
  simp [h, hs, hsc]

/-- Method `GenerateSelfSigned` returns at once when the description has no certificate spec. -/
theorem generateSelfSigned_of_none (n : Node σ) (w : World σ)
    (h : GetSelfSigned (GetCert (GetConfig n.Proto)) = none) :
    GenerateSelfSigned n w = (none, logInfof (n.Name ++ " - no cert config") w) := by
  unfold GenerateSelfSigned
  rw [h]

/-- C8: without a self-signed certificate spec `GenerateSelfSigned` returns no error and
makes no call on any collaborator, whatever they would answer: no pod watch, no open, no
command, no sleep. -/
theorem generateSelfSigned_no_cert_noop (n : Node σ) (w : World σ)
    (h : GetSelfSigned (GetCert (GetConfig n.Proto)) = none) :
    (GenerateSelfSigned n w).1 = none ∧ (GenerateSelfSigned n w).2.trace = w.trace ∧
      (GenerateSelfSigned n w).2.dev = w.dev ∧ (GenerateSelfSigned n w).2.clock = w.clock := by
  rw [generateSelfSigned_of_none n w h]
  exact ⟨rfl, rfl, rfl, rfl⟩

/-- C8 at a node built from a nil description, which has no certificate spec. -/
theorem generateSelfSigned_no_cert_noop_witness :
    (GenerateSelfSigned (plainNode quietStub) freshWorld).1 = none ∧
      (GenerateSelfSigned (plainNode quietStub) freshWorld).2.trace = freshWorld.trace ∧
      (GenerateSelfSigned (plainNode quietStub) freshWorld).2.dev = freshWorld.dev ∧
      (GenerateSelfSigned (plainNode quietStub) freshWorld).2.clock = freshWorld.clock :=
  generateSelfSigned_no_cert_noop (plainNode quietStub) freshWorld (by
    simp [plainNode, defaults_eq, defaultsConfig_eq, GetSelfSigned, GetCert, GetConfig,
      nilNode, emptyConfig])

/-- C2 fails for `GenerateSelfSigned`: with a certificate spec, a pod watch and an open that
succeed and a live transport, a failing first poll makes it return the error after four
calls, none of which closes the session. -/
theorem generateSelfSigned_error_leaves_session_open :
    (GenerateSelfSigned (certNode (scriptedStub lostBatch)) freshWorld).1 =
        some ⟨"failed sending generate-self-signed commands: connection lost"⟩ ∧
      (GenerateSelfSigned (certNode (scriptedStub lostBatch)) freshWorld).2.trace =
        [ Event.watch none, Event.openConn "juniper_junos" none, Event.isAlive true,
          Event.sendCommands (certCommands "grpc-server-cert")
            (Outcome.error ⟨"connection lost"⟩) ] ∧
      (GenerateSelfSigned (certNode (scriptedStub lostBatch)) freshWorld).2.trace.countP
        Event.isClose = 0 := by
  simp [GenerateSelfSigned, waitCertInfraReadyAndPushCert, SpawnCLIConn, certNode, certProto,
    scriptedStub, quietStub, freshWorld, GetSelfSigned, GetCert, GetConfig, GetCertName,
    emptyConfig, World.call, logInfof, scrapliPlatformName]
  rw [certPollLoop_send_error _ _ _ _ ⟨"connection lost"⟩ (by decide) rfl]
  simp [World.call, lostBatch, Event.isClose, List.countP_cons]

/-- C3 fails when a response marked failed follows one that says `"successfully"`: the
transport reports a failed command in the batch, yet `GenerateSelfSigned` takes the
certificate as done, pushes the gRPC-service configuration and returns no error. -/
theorem generateSelfSigned_ok_despite_failed_response :
    transportFailed (Outcome.ok maskedFailureBatch) = true ∧
      (GenerateSelfSigned (certNode (scriptedStub fun _ => Outcome.ok maskedFailureBatch))
        freshWorld).1 = none ∧
      (GenerateSelfSigned (certNode (scriptedStub fun _ => Outcome.ok maskedFailureBatch))
        freshWorld).2.trace =
        [ Event.watch none, Event.openConn "juniper_junos" none, Event.isAlive true,
          Event.sendCommands (certCommands "grpc-server-cert") (Outcome.ok maskedFailureBatch),
          Event.sendConfigs GRPCConfig (Outcome.ok ⟨[], none⟩), Event.close none ] := by
  refine ⟨by decide, ?_⟩
  simp [GenerateSelfSigned, waitCertInfraReadyAndPushCert, SpawnCLIConn, certNode, certProto,
    scriptedStub, quietStub, freshWorld, GetSelfSigned, GetCert, GetConfig, GetCertName,
    emptyConfig, World.call, logInfof, scrapliPlatformName]
  rw [certPollLoop_returned _ _ _ _ maskedFailureBatch none (by decide) rfl (by decide)]
  simp [World.call, logLines]

/-- C4 fails when a response with `"error:"` comes with one that says `"successfully"`: no
command is reported failed and the first response contains `"error:"`; the loop logs that it
will retry in 30 seconds, and then returns the certificate as done after this one poll,
without a sleep. -/
theorem certPoll_done_despite_error_text :
    transportFailed (Outcome.ok mixedTextBatch) = false ∧
      (mixedTextBatch.Responses.any fun r => stringsContains r.Result "error:") = true ∧
      (waitCertInfraReadyAndPushCert
        (certNode (scriptedStub fun _ => Outcome.ok mixedTextBatch)) freshWorld).1 = none ∧
      (waitCertInfraReadyAndPushCert
        (certNode (scriptedStub fun _ => Outcome.ok mixedTextBatch)) freshWorld).2.trace =
        [ Event.sendCommands (certCommands "grpc-server-cert") (Outcome.ok mixedTextBatch) ] ∧
      (waitCertInfraReadyAndPushCert
        (certNode (scriptedStub fun _ => Outcome.ok mixedTextBatch)) freshWorld).2.logs =
        [ "Waiting for certificates to be pushed (timeout: 10m0s)",
          "Cert infra isn't ready. Retrying in 30 sec. Response " ++
            "error: key pair already exists\n" ++
            "Self-signed certificate generated and loaded successfully",
          "Cert Infra ready. Configured Certs. Response " ++
            "error: key pair already exists\n" ++
            "Self-signed certificate generated and loaded successfully" ] := by
  refine ⟨by decide, by decide, ?_⟩
  simp [waitCertInfraReadyAndPushCert, certNode, certProto,
    scriptedStub, quietStub, freshWorld, GetSelfSigned, GetCert, GetConfig, GetCertName,
    emptyConfig, World.call, logInfof]
  rw [certPollLoop_returned _ _ _ _ mixedTextBatch none (by decide) rfl (by decide)]
  exact ⟨rfl, rfl, rfl⟩

theorem answering_send (f : Nat → String) (n : Node Nat) (hn : n.ext = answering f) (s : Nat)
    (commands : List String) :
    n.ext.SendCommands s commands =
      (Outcome.ok ⟨commands.map fun _ => ⟨f s, none⟩, none⟩, s + 1) := by
  rw [hn]
  rfl

theorem scan_answer_error (n : Node σ) (m : MultiResponse) (rs : List String) :
    (scanCertResponses n m (rs.map fun _ => ⟨"error:", none⟩)).1 = none := by
  have h : stringsContains "error:" "successfully" = false := by decide
  induction rs with
  | nil => rfl
  | cons r rest ih => simpa [scanCertResponses, h] using ih

theorem scan_answer_successfully (n : Node σ) (m : MultiResponse) (c : String) :
    (scanCertResponses n m ((certCommands c).map fun _ => ⟨"successfully", none⟩)).1 =
      some none := by
  have h : stringsContains "successfully" "successfully" = true := by decide
  simp [scanCertResponses, certCommands, h]

/-- The loop on a transport that is ready after `N` polls, started `k` polls before that. -/
theorem certPollLoop_readyAfter (N : Nat) (n : Node Nat) (hn : n.ext = answering (readyAfter N))
    (c : String) (start : Nat) :
    ∀ (k : Nat) (w : World Nat), w.dev + k = N → start ≤ w.clock →
      w.clock - start + 30 * k < certGenTimeout →
      ∃ evs, (certPollLoop n (certCommands c) start w).1 = none ∧
        (certPollLoop n (certCommands c) start w).2.trace = w.trace ++ evs ∧
        evs.countP Event.isSleep = k ∧ evs.countP Event.isPoll = k + 1 ∧
        (certPollLoop n (certCommands c) start w).2.clock = w.clock + 30 * k := by
  intro k
  induction k with
  | zero =>
    intro w hd hs hc
    have htxt : readyAfter N w.dev = "successfully" := by
      simp only [readyAfter]
      rw [if_neg (by omega)]
    have hsend := answering_send (readyAfter N) n hn w.dev (certCommands c)
    rw [htxt] at hsend
    rw [certPollLoop_returned n _ start w _ none (by omega) (by rw [hsend])
      (scan_answer_successfully n _ c)]
    exact ⟨_, rfl, rfl, by simp [Event.isSleep, List.countP_cons],
      by simp [Event.isPoll, List.countP_cons], rfl⟩
  | succ k ih =>
    intro w hd hs hc
    have htxt : readyAfter N w.dev = "error:" := by
      simp only [readyAfter]
      rw [if_pos (by omega)]
    have hsend := answering_send (readyAfter N) n hn w.dev (certCommands c)
    rw [htxt] at hsend
    rw [certPollLoop_retry n _ start w _ (by omega) (by rw [hsend])
      (scan_answer_error n _ (certCommands c))]
    obtain ⟨evs, h1, h2, h3, h4, h5⟩ := ih
      (timeSleep certPollInterval
        (logLines (scanCertResponses n _
          ((certCommands c).map fun _ => (⟨"error:", none⟩ : Response))).2
          (w.call (Event.sendCommands (certCommands c)
            (Outcome.ok ⟨(certCommands c).map fun _ => ⟨"error:", none⟩, none⟩))
            (n.ext.SendCommands w.dev (certCommands c)).2)))
      (by simp [timeSleep, logLines, World.call, hsend]; omega)
      (by simp [timeSleep, logLines, World.call]; omega)
      (by simp [timeSleep, logLines, World.call, certPollInterval]; omega)
    refine ⟨Event.sendCommands (certCommands c)
        (Outcome.ok ⟨(certCommands c).map fun _ => ⟨"error:", none⟩, none⟩) ::
      Event.sleep certPollInterval :: evs, h1, ?_, ?_, ?_, ?_⟩
    · rw [h2]; simp [timeSleep, logLines, World.call]
    · simp [List.countP_cons, Event.isSleep, h3]
    · simp [List.countP_cons, Event.isPoll, h4]
    · rw [h5]; simp [timeSleep, logLines, World.call, certPollInterval]; omega

/-- The loop on a transport that always answers `"error:"`, started `k` polls before the
deadline. -/
theorem certPollLoop_always_error (n : Node Nat) (hn : n.ext = answering fun _ => "error:")
    (c : String) (start : Nat) :
    ∀ (k : Nat) (w : World Nat), k ≤ 20 → w.clock = start + 30 * (20 - k) →
      ∃ evs, (certPollLoop n (certCommands c) start w).1 =
          some ⟨"failed sending generate-self-signed commands"⟩ ∧
        (certPollLoop n (certCommands c) start w).2.trace = w.trace ++ evs ∧
        evs.countP Event.isSleep = k ∧ evs.countP Event.isPoll = k ∧
        (certPollLoop n (certCommands c) start w).2.clock = start + certGenTimeout := by
  intro k
  induction k with
  | zero =>
    intro w _ hc
    rw [certPollLoop_timeout n _ start w (by simp [certGenTimeout]; omega)]
    exact ⟨[], rfl, by simp, rfl, rfl, by simp [certGenTimeout]; omega⟩
  | succ k ih =>
    intro w hk hc
    have hsend := answering_send (fun _ => "error:") n hn w.dev (certCommands c)
    rw [certPollLoop_retry n _ start w _ (by simp [certGenTimeout]; omega) (by rw [hsend])
      (scan_answer_error n _ (certCommands c))]
    obtain ⟨evs, h1, h2, h3, h4, h5⟩ := ih
      (timeSleep certPollInterval
        (logLines (scanCertResponses n _
          ((certCommands c).map fun _ => (⟨"error:", none⟩ : Response))).2
          (w.call (Event.sendCommands (certCommands c)
            (Outcome.ok ⟨(certCommands c).map fun _ => ⟨"error:", none⟩, none⟩))
            (n.ext.SendCommands w.dev (certCommands c)).2)))
      (by omega)
      (by simp [timeSleep, logLines, World.call, certPollInterval]; omega)
    refine ⟨Event.sendCommands (certCommands c)
        (Outcome.ok ⟨(certCommands c).map fun _ => ⟨"error:", none⟩, none⟩) ::
      Event.sleep certPollInterval :: evs, h1, ?_, ?_, ?_, h5⟩
    · rw [h2]; simp [timeSleep, logLines, World.call]
    · simp [List.countP_cons, Event.isSleep, h3]
    · simp [List.countP_cons, Event.isPoll, h4]

/-- The loop on any collaborators, started `k` polls before the deadline: it returns after at
most `k` polls and sleeps, not past the deadline. -/
theorem certPollLoop_bounded (n : Node σ) (commands : List String) (start : Nat) :
    ∀ (k : Nat) (w : World σ), k ≤ 20 → w.clock = start + 30 * (20 - k) →
      ∃ evs, (certPollLoop n commands start w).2.trace = w.trace ++ evs ∧
        evs.countP Event.isPoll ≤ k ∧ evs.countP Event.isSleep ≤ k ∧
        (certPollLoop n commands start w).2.clock ≤ start + certGenTimeout := by
  intro k
  induction k with
  | zero =>
    intro w _ hc
    rw [certPollLoop_timeout n _ start w (by simp [certGenTimeout]; omega)]
    exact ⟨[], by simp, by simp, by simp, by simp [certGenTimeout]; omega⟩
  | succ k ih =>
    intro w hk hc
    have hlt : w.clock - start < certGenTimeout := by simp [certGenTimeout]; omega
    cases hs : (n.ext.SendCommands w.dev commands).1 with
    | error err =>
      rw [certPollLoop_send_error n _ start w err hlt hs]
      exact ⟨[Event.sendCommands commands (Outcome.error err)], rfl,
        by simp [List.countP_cons, Event.isPoll], by simp [List.countP_cons, Event.isSleep],
        by simp [World.call, certGenTimeout]; omega⟩
    | ok m =>
      cases hsc : (scanCertResponses n m m.Responses).1 with
      | some ret =>
        rw [certPollLoop_returned n _ start w m ret hlt hs hsc]
        exact ⟨[Event.sendCommands commands (Outcome.ok m)], rfl,
          by simp [List.countP_cons, Event.isPoll], by simp [List.countP_cons, Event.isSleep],
          by simp [World.call, logLines, certGenTimeout]; omega⟩
      | none =>
        rw [certPollLoop_retry n _ start w m hlt hs hsc]
        obtain ⟨evs, h1, h2, h3, h4⟩ := ih
          (timeSleep certPollInterval
            (logLines (scanCertResponses n m m.Responses).2
              (w.call (Event.sendCommands commands (Outcome.ok m))
                (n.ext.SendCommands w.dev commands).2)))
          (by omega)
          (by simp [timeSleep, logLines, World.call, certPollInterval]; omega)
        refine ⟨Event.sendCommands commands (Outcome.ok m) ::
          Event.sleep certPollInterval :: evs, ?_, ?_, ?_, h4⟩
        · rw [h1]; simp [timeSleep, logLines, World.call]
        · simp [List.countP_cons, Event.isPoll]; omega
        · simp [List.countP_cons, Event.isSleep]; omega

theorem waitCertInfraReadyAndPushCert_eq (n : Node σ) (w : World σ) :
    waitCertInfraReadyAndPushCert n w =
      certPollLoop n (certCommands (GetCertName (GetSelfSigned (GetCert (GetConfig n.Proto)))))
        w.clock (logInfof "Waiting for certificates to be pushed (timeout: 10m0s)" w) :=
  rfl

/-- C5: on the simulated clock (a send takes no time, a sleep takes 30 seconds, the deadline
is 600 seconds) the poll loop of `waitCertInfraReadyAndPushCert` (1) succeeds after exactly
`N` sleeps and `N + 1` polls, `N * 30` seconds after it started and before the deadline, on a
transport that answers `"error:"` to the first `N` polls and then `"successfully"`, when
`N < 20`; (2) fails with the error of the loop exit after exactly 20 polls and 20 sleeps, 600
seconds after it started, on a transport that always answers `"error:"`; (3) returns after at
most 20 polls, not later than 600 seconds after it started, on every transport. -/
theorem certPoll_terminates_on_simulated_clock {τ : Type} (N : Nat) (n a : Node Nat)
    (w : World Nat) (m : Node τ) (v : World τ)
    (hn : n.ext = answering (readyAfter N)) (ha : a.ext = answering fun _ => "error:")
    (hw : w.dev = 0) :
    (N < 20 → ∃ evs, (waitCertInfraReadyAndPushCert n w).1 = none ∧
        (waitCertInfraReadyAndPushCert n w).2.trace = w.trace ++ evs ∧
        evs.countP Event.isSleep = N ∧ evs.countP Event.isPoll = N + 1 ∧
        (waitCertInfraReadyAndPushCert n w).2.clock = w.clock + N * certPollInterval ∧
        N * certPollInterval < certGenTimeout) ∧
    (∃ evs, (waitCertInfraReadyAndPushCert a w).1 =
          some ⟨"failed sending generate-self-signed commands"⟩ ∧
        (waitCertInfraReadyAndPushCert a w).2.trace = w.trace ++ evs ∧
        evs.countP Event.isSleep = 20 ∧ evs.countP Event.isPoll = 20 ∧
        (waitCertInfraReadyAndPushCert a w).2.clock = w.clock + certGenTimeout) ∧
    (∃ evs, (waitCertInfraReadyAndPushCert m v).2.trace = v.trace ++ evs ∧
        evs.countP Event.isPoll ≤ 20 ∧
        (waitCertInfraReadyAndPushCert m v).2.clock ≤ v.clock + certGenTimeout) := by
  simp only [waitCertInfraReadyAndPushCert_eq]
  refine ⟨?_, ?_, ?_⟩
  · intro hN
    obtain ⟨evs, h1, h2, h3, h4, h5⟩ := certPollLoop_readyAfter N n hn
      (GetCertName (GetSelfSigned (GetCert (GetConfig n.Proto)))) w.clock N
      (logInfof "Waiting for certificates to be pushed (timeout: 10m0s)" w)
      (by simp [logInfof, hw]) (by simp [logInfof])
      (by simp [logInfof, certGenTimeout]; omega)
    refine ⟨evs, h1, h2, h3, h4, ?_, by simp [certPollInterval, certGenTimeout]; omega⟩
    rw [h5]
    simp [logInfof, certPollInterval]
    ring
  · obtain ⟨evs, h1, h2, h3, h4, h5⟩ := certPollLoop_always_error a ha
      (GetCertName (GetSelfSigned (GetCert (GetConfig a.Proto)))) w.clock 20
      (logInfof "Waiting for certificates to be pushed (timeout: 10m0s)" w)
      (by omega) (by simp [logInfof])
    exact ⟨evs, h1, h2, h3, h4, h5⟩
  · obtain ⟨evs, h1, h2, _, h4⟩ := certPollLoop_bounded m
      (certCommands (GetCertName (GetSelfSigned (GetCert (GetConfig m.Proto))))) v.clock 20
      (logInfof "Waiting for certificates to be pushed (timeout: 10m0s)" v)
      (by omega) (by simp [logInfof])
    exact ⟨evs, h1, h2, h4⟩

/-- C5 at `N = 3`: three sleeps, four polls, success 90 seconds after the start. -/
theorem certPoll_terminates_on_simulated_clock_witness :
    3 < 20 ∧ ∃ evs,
      (waitCertInfraReadyAndPushCert (certNode (answering (readyAfter 3))) freshWorld).1 = none ∧
      (waitCertInfraReadyAndPushCert (certNode (answering (readyAfter 3))) freshWorld).2.trace =
        freshWorld.trace ++ evs ∧
      evs.countP Event.isSleep = 3 ∧ evs.countP Event.isPoll = 3 + 1 ∧
      (waitCertInfraReadyAndPushCert (certNode (answering (readyAfter 3))) freshWorld).2.clock =
        freshWorld.clock + 3 * certPollInterval ∧
      3 * certPollInterval < certGenTimeout :=
  ⟨by decide,
    (certPoll_terminates_on_simulated_clock 3 (certNode (answering (readyAfter 3)))
      (certNode (answering fun _ => "error:")) freshWorld
      (certNode (answering fun _ => "error:")) freshWorld rfl rfl rfl).1 (by decide)⟩

/-- A send error ends the bootstrap poll at once: one poll, no sleep, an error returned. -/
theorem waitCert_send_error_aborts (n : Node σ) (w : World σ) (err : GoError)
    (hs : (n.ext.SendCommands w.dev
      (certCommands (GetCertName (GetSelfSigned (GetCert (GetConfig n.Proto)))))).1 =
        Outcome.error err) :
    (waitCertInfraReadyAndPushCert n w).1 =
        some ⟨"failed sending generate-self-signed commands: " ++ err.msg⟩ ∧
      (waitCertInfraReadyAndPushCert n w).2.trace =
        w.trace ++ [Event.sendCommands
          (certCommands (GetCertName (GetSelfSigned (GetCert (GetConfig n.Proto)))))
          (Outcome.error err)] := by
  rw [waitCertInfraReadyAndPushCert_eq,
    certPollLoop_send_error n _ w.clock
      (logInfof "Waiting for certificates to be pushed (timeout: 10m0s)" w) err
      (by simp [logInfof, certGenTimeout]) hs]
  exact ⟨rfl, rfl⟩

/-- A response marked failed ends the scan with that failure when no response before it
says `"successfully"`. -/
theorem scanCertResponses_failed (n : Node σ) (m : MultiResponse) (pre rest : List Response)
    (r : Response) (failed : GoError) (hr : r.Failed = some failed)
    (hpre : ∀ p ∈ pre, p.Failed = none ∧ stringsContains p.Result "successfully" = false) :
    (scanCertResponses n m (pre ++ r :: rest)).1 = some (some failed) := by
  induction pre with
  | nil => simp [scanCertResponses, hr]
  | cons p ps ih =>
    have hp := hpre p (by simp)
    have ih2 := ih fun q hq => hpre q (by simp [hq])
    simp [scanCertResponses, hp.1, hp.2, ih2]

/-- A batch without a failure indicator and without `"successfully"` in any response runs
the scan to its end, which is followed by the sleep and the next poll. -/
theorem scanCertResponses_not_ready (n : Node σ) (m : MultiResponse) (rs : List Response)
    (h : ∀ r ∈ rs, r.Failed = none ∧ stringsContains r.Result "successfully" = false) :
    (scanCertResponses n m rs).1 = none := by
  induction rs with
  | nil => rfl
  | cons p ps ih =>
    have hp := h p (by simp)
    have ih2 := ih fun q hq => h q (by simp [hq])
    simp [scanCertResponses, hp.1, hp.2, ih2]

end Cptx
